import Mathlib

/-!
Shallow embedding of the data-handling core of the sn_node repository:
the role-conditional request dispatcher (`DataHandler` in
`src/data_handler/mod.rs`) and the adult chunk-read verifier (`Reading` in
`src/node/adult_duties/chunks/reading.rs`).

External collaborators (the physical chunk holder, the coordinating
immutable/mutable/structured sub-handlers, the chunk storage engine) are
modelled as records of function-valued fields: the dispatcher's code is
translated line by line, while the collaborators' behaviour stays
universally quantified.  Machine-level types that the dispatcher treats as
opaque (names, message ids, errors) are modelled as `Nat`.
-/

namespace SnNode

/-- `XorName`: an address in the network keyspace (opaque to the dispatcher). -/
abbrev XorName := Nat

/-- `MessageId`: the opaque correlation id of a request/response pair. -/
abbrev MessageId := Nat

/-- `safe_nd::Error`: opaque error payload. -/
abbrev NdError := Nat

/-- `NodePublicId`: this node's public identity; only its derived name is used. -/
structure NodePublicId where
  name : XorName
deriving DecidableEq, Repr

/-- `safe_nd::PublicId`: a client, node or app identity. -/
inductive PublicId where
  | client (name : XorName)
  | node (id : NodePublicId)
  | app (name : XorName)
deriving DecidableEq, Repr

instance : Inhabited PublicId := ⟨PublicId.client 0⟩

/-- `IDataAddress`: address of a published or unpublished immutable chunk. -/
inductive IDataAddress where
  | pub (name : XorName)
  | unpub (name : XorName)
deriving DecidableEq, Repr

/-- `IData`: an immutable chunk; only its address is inspected by this core. -/
structure IData where
  address : IDataAddress
deriving DecidableEq, Repr

/-- `IDataRequest`: Put / Get / DeleteUnpub on immutable data. -/
inductive IDataRequest where
  | put (data : IData)
  | get (address : IDataAddress)
  | deleteUnpub (address : IDataAddress)
deriving DecidableEq, Repr

/-- `safe_nd::Request`: the request kinds distinguished by `handle_request`.
Mutable-data, structured-data and the invalid-for-this-role kinds carry
opaque payloads. -/
inductive Request where
  | idata (r : IDataRequest)
  | mdata (r : Nat)
  | sdata (r : Nat)
  | coins (r : Nat)
  | loginPacket (r : Nat)
  | client (r : Nat)
deriving DecidableEq, Repr

/-- `safe_nd::Response`: the response kinds distinguished by
`handle_response`; every other variant is handled uniformly by the
catch-all arm and is modelled by `otherResponse`. -/
inductive Response where
  | mutation (result : Except NdError Unit)
  | getIData (result : Except NdError IData)
  | otherResponse (kind : Nat)

/-- `routing::SrcLocation`: the transport-resolved source classification of
an inbound message (direct node, or aggregated section). -/
inductive SrcLocation where
  | nodeSrc (name : XorName)
  | sectionSrc (name : XorName)
deriving DecidableEq, Repr

/-- `matches!(src, SrcLocation::Section(_))` from `handle_request`. -/
def SrcLocation.isSection : SrcLocation → Bool
  | .sectionSrc _ => true
  | .nodeSrc _ => false

/-- `Rpc`: the inbound envelope (request, response, or duplication
trigger).  Fields the dispatcher never reads are elided. -/
inductive Rpc where
  | request (request : Request) (requester : PublicId) (message_id : MessageId)
  | response (response : Response) (message_id : MessageId)
  | duplicate (requester : PublicId) (address : IDataAddress)
      (holders : Finset XorName) (message_id : MessageId)

/-- `Action`: an abstract command returned to the surrounding transport.
`sendToPeers` is `Action::SendToPeers`; actions produced inside external
collaborators are opaque to this core and modelled by `otherAction`. -/
inductive Action where
  | sendToPeers (sender : XorName) (targets : Finset XorName) (rpc : Rpc)
  | otherAction (kind : Nat)

/-- External collaborator `IDataHolder` (`idata_holder` module): the
storage-role entry point, modelled by its call contract. -/
structure IDataHolder where
  store_idata : IData → PublicId → MessageId → Option Action
  get_idata : IDataAddress → PublicId → MessageId → Option Action
  delete_unpub_idata : IDataAddress → PublicId → MessageId → Option Action

/-- External collaborator `IDataHandler` (`idata_handler` module): the
coordinating-role router for immutable data, modelled by its call
contract. -/
structure IDataHandler where
  handle_put_idata_req : PublicId → IData → MessageId → Option Action
  handle_get_idata_req : PublicId → IDataAddress → MessageId → Option Action
  handle_delete_unpub_idata_req : PublicId → IDataAddress → MessageId → Option Action
  handle_mutation_resp : XorName → Except NdError Unit → MessageId → Option Action
  handle_get_idata_resp : XorName → Except NdError IData → MessageId → Option Action
  trigger_data_copy_process : XorName → Option (List Action)

/-- External collaborator `MDataHandler` (`mdata_handler` module). -/
structure MDataHandler where
  handle_request : PublicId → Nat → MessageId → Option Action

/-- External collaborator `SDataHandler` (`sdata_handler` module). -/
structure SDataHandler where
  handle_request : PublicId → Nat → MessageId → Option Action

/-- The `DataHandler` state (`src/data_handler/mod.rs`): one holder, the
three optional coordinating sub-handlers, and the pending-duplication map
`idata_copy_op` from correlation id to the original requester. -/
structure DataHandler where
  id : NodePublicId
  idata_holder : IDataHolder
  idata_handler : Option IDataHandler
  mdata_handler : Option MDataHandler
  sdata_handler : Option SDataHandler
  idata_copy_op : MessageId → Option PublicId

/-- `DataHandler::new`.  The collaborator constructors are external and
fallible; their (already applied) results are taken as parameters, in the
order the source consumes them: the holder first, then — only when
`is_elder` — the three coordinating sub-handlers. -/
def DataHandler.new (id : NodePublicId)
    (mk_idata_holder : Except NdError IDataHolder)
    (mk_idata_handler : Except NdError IDataHandler)
    (mk_mdata_handler : Except NdError MDataHandler)
    (mk_sdata_handler : Except NdError SDataHandler)
    (is_elder : Bool) : Except NdError DataHandler :=
  match mk_idata_holder with
  | .error e => .error e
  | .ok idata_holder =>
    if is_elder then
      match mk_idata_handler with
      | .error e => .error e
      | .ok idata_handler =>
        match mk_mdata_handler with
        | .error e => .error e
        | .ok mdata_handler =>
          match mk_sdata_handler with
          | .error e => .error e
          | .ok sdata_handler =>
            .ok { id := id, idata_holder := idata_holder,
                  idata_handler := some idata_handler,
                  mdata_handler := some mdata_handler,
                  sdata_handler := some sdata_handler,
                  idata_copy_op := fun _ => none }
    else
      .ok { id := id, idata_holder := idata_holder,
            idata_handler := none, mdata_handler := none, sdata_handler := none,
            idata_copy_op := fun _ => none }

/-- `DataHandler::handle_duplicate_request`: on a vacant entry for
`message_id`, record the requester and fan out a `GetIData` request to all
holders with this node substituted as requester; on an occupied entry, do
nothing. -/
def DataHandler.handle_duplicate_request (s : DataHandler) (requester : PublicId)
    (address : IDataAddress) (holders : Finset XorName) (message_id : MessageId) :
    Option Action × DataHandler :=
  match s.idata_copy_op message_id with
  | none =>
      let our_name := s.id.name
      let our_id := s.id
      let s1 : DataHandler :=
        { s with idata_copy_op :=
            fun k => if k = message_id then some requester else s.idata_copy_op k }
      (some (Action.sendToPeers our_name holders
              (Rpc.request (Request.idata (IDataRequest.get address))
                (PublicId.node our_id) message_id)), s1)
  | some _ => (none, s)

/-- `DataHandler::handle_idata_request`: run `operation` on the
coordinating idata sub-handler when present; trace and no action when
absent. -/
def DataHandler.handle_idata_request (s : DataHandler)
    (operation : IDataHandler → Option Action) : Option Action :=
  match s.idata_handler with
  | none => none
  | some idata_handler => operation idata_handler

/-- `DataHandler::handle_request`: role-conditional dispatch.  Immutable
Put/Get/DeleteUnpub go to the holder when `src` is a section, otherwise to
the coordinating idata sub-handler; mutable/structured requests go to
their sub-handler when present; Coins/LoginPacket/Client are logged and
dropped.  The state (the pending map) is never touched. -/
def DataHandler.handle_request (s : DataHandler) (src : SrcLocation)
    (requester : PublicId) (request : Request) (message_id : MessageId) :
    Option Action × DataHandler :=
  (match request with
   | .idata idata_req =>
     match idata_req with
     | .put data =>
        if src.isSection then
          s.idata_holder.store_idata data requester message_id
        else
          s.handle_idata_request (fun idata_handler =>
            idata_handler.handle_put_idata_req requester data message_id)
     | .get address =>
        if src.isSection then
          s.idata_holder.get_idata address requester message_id
        else
          s.handle_idata_request (fun idata_handler =>
            idata_handler.handle_get_idata_req requester address message_id)
     | .deleteUnpub address =>
        if src.isSection then
          s.idata_holder.delete_unpub_idata address requester message_id
        else
          s.handle_idata_request (fun idata_handler =>
            idata_handler.handle_delete_unpub_idata_req requester address message_id)
   | .mdata mdata_req =>
     match s.mdata_handler with
     | none => none
     | some mdata_handler => mdata_handler.handle_request requester mdata_req message_id
   | .sdata sdata_req =>
     match s.sdata_handler with
     | none => none
     | some sdata_handler => sdata_handler.handle_request requester sdata_req message_id
   | .coins _ => none
   | .loginPacket _ => none
   | .client _ => none, s)

/-- `DataHandler::handle_response`: Mutation results go to the idata
sub-handler; a `GetIData` result whose correlation id is pending is a
duplication completion — on success the chunk is stored under the
requester recorded in the pending map (looked up again and unwrapped, as
in the source), on failure nothing happens; a non-pending `GetIData` goes
to the idata sub-handler; any other response kind is logged and dropped. -/
def DataHandler.handle_response (s : DataHandler) (src : XorName)
    (response : Response) (message_id : MessageId) : Option Action × DataHandler :=
  (match response with
   | .mutation result =>
      s.handle_idata_request (fun idata_handler =>
        idata_handler.handle_mutation_resp src result message_id)
   | .getIData result =>
      if (s.idata_copy_op message_id).isSome then
        match result with
        | .ok data =>
            let requester := (s.idata_copy_op message_id).get!
            s.idata_holder.store_idata data requester message_id
        | .error _ => none
      else
        s.handle_idata_request (fun idata_handler =>
          idata_handler.handle_get_idata_resp src result message_id)
   | .otherResponse _ => none, s)

/-- Modelled from the spec: `utils::get_source_name` is code of this
repository not under `src/`; it extracts the source's name from a
location. -/
def get_source_name : SrcLocation → XorName
  | .nodeSrc name => name
  | .sectionSrc name => name

/-- `DataHandler::handle_vault_rpc`: the single entry point, dispatching
the envelope to the request, response or duplication handler. -/
def DataHandler.handle_vault_rpc (s : DataHandler) (src : SrcLocation) (rpc : Rpc) :
    Option Action × DataHandler :=
  match rpc with
  | .request request requester message_id =>
      s.handle_request src requester request message_id
  | .response response message_id =>
      s.handle_response (get_source_name src) response message_id
  | .duplicate requester address holders message_id =>
      s.handle_duplicate_request requester address holders message_id

/-- `DataHandler::trigger_chunk_duplication`: delegate to the idata
sub-handler when present, no-op otherwise. -/
def DataHandler.trigger_chunk_duplication (s : DataHandler) (node : XorName) :
    Option (List Action) :=
  match s.idata_handler with
  | none => none
  | some idata_handler => idata_handler.trigger_data_copy_process node

/-!
The adult chunk-reading path
(`src/node/adult_duties/chunks/reading.rs`).  The message envelope and
sender types come from the external `safe_nd` crate; the aggregated
signature check `msg.verify()` is crypto performed outside this core and
is modelled as a boolean field of the envelope.
-/

/-- Address of a blob, opaque to the read path. -/
abbrev BlobAddress := Nat

/-- `safe_nd::Address`: the network address of a message sender. -/
inductive Address where
  | clientAddr (name : XorName)
  | nodeAddr (name : XorName)
  | sectionAddr (name : XorName)
deriving DecidableEq, Repr

/-- `safe_nd::MsgSender`: who sent (or last relayed) a message. -/
inductive MsgSender where
  | clientSender (name : XorName)
  | nodeSender (name : XorName)
  | sectionSender (name : XorName)
deriving DecidableEq, Repr

/-- `MsgSender::address`. -/
def MsgSender.address : MsgSender → Address
  | .clientSender name => .clientAddr name
  | .nodeSender name => .nodeAddr name
  | .sectionSender name => .sectionAddr name

/-- Whether a sender's address is classified `Address::Section`. -/
def MsgSender.isSectionAddressed (sender : MsgSender) : Bool :=
  match sender.address with
  | .sectionAddr _ => true
  | _ => false

/-- `safe_nd::MsgEnvelope`: the fields the read path consumes.  `verify`
models the result of the aggregated-signature check `msg.verify()`. -/
structure MsgEnvelope where
  most_recent_sender : MsgSender
  verify : Bool
  id : MessageId
  origin : MsgSender

/-- `safe_nd::BlobRead`: the single read request kind. -/
inductive BlobRead where
  | get (address : BlobAddress)
deriving DecidableEq, Repr

/-- A messaging duty returned by storage, opaque to the read path. -/
abbrev MessagingDuty := Nat

/-- External collaborator `ChunkStorage`, modelled by its call contract. -/
structure ChunkStorage where
  get : BlobAddress → MessageId → MsgSender → Option MessagingDuty

/-- `Reading`: a pending chunk read paired with its originating envelope. -/
structure Reading where
  read : BlobRead
  msg : MsgEnvelope

/-- `Reading::new`. -/
def Reading.new (read : BlobRead) (msg : MsgEnvelope) : Reading :=
  { read := read, msg := msg }

/-- `Reading::verify_msg`: true only for a `Section` sender whose
aggregated signature verifies. -/
def Reading.verify_msg (r : Reading) : Bool :=
  match r.msg.most_recent_sender with
  | .sectionSender _ => r.msg.verify
  | _ => false

/-- `Reading::get_result`: storage is consulted only when the most recent
sender's address is `Section` and `verify_msg` holds; otherwise the read
is silently refused. -/
def Reading.get_result (r : Reading) (storage : ChunkStorage) : Option MessagingDuty :=
  match r.read with
  | .get address =>
    match r.msg.most_recent_sender.address with
    | .sectionAddr _ =>
        if r.verify_msg then storage.get address r.msg.id r.msg.origin
        else none
    | _ => none

/-!
Derived definitions used by the statements below, and concrete fixtures
used to instantiate hypotheses.
-/

/-- The holder-path dispatch of an immutable-data request: delegate the
operation directly to the physical `IDataHolder` (spec §4.1, aggregated
section sender). -/
def holderDispatch (s : DataHandler) (requester : PublicId)
    (idata_req : IDataRequest) (message_id : MessageId) : Option Action :=
  match idata_req with
  | .put data => s.idata_holder.store_idata data requester message_id
  | .get address => s.idata_holder.get_idata address requester message_id
  | .deleteUnpub address => s.idata_holder.delete_unpub_idata address requester message_id

/-- The router-path dispatch of an immutable-data request: delegate to the
coordinating `IDataHandler` when present (spec §4.1, direct sender). -/
def routerDispatch (s : DataHandler) (requester : PublicId)
    (idata_req : IDataRequest) (message_id : MessageId) : Option Action :=
  s.handle_idata_request (fun idata_handler =>
    match idata_req with
    | .put data => idata_handler.handle_put_idata_req requester data message_id
    | .get address => idata_handler.handle_get_idata_req requester address message_id
    | .deleteUnpub address => idata_handler.handle_delete_unpub_idata_req requester address message_id)

/-- The all-or-none invariant on the coordinating sub-handler group
(spec §3, Role). -/
def DataHandler.coordGroupConsistent (s : DataHandler) : Prop :=
  (s.idata_handler.isSome = true ∧ s.mdata_handler.isSome = true ∧
    s.sdata_handler.isSome = true) ∨
  (s.idata_handler = none ∧ s.mdata_handler = none ∧ s.sdata_handler = none)

/-- A concrete holder whose operations all yield no action. -/
def holder0 : IDataHolder :=
  { store_idata := fun _ _ _ => none
    get_idata := fun _ _ _ => none
    delete_unpub_idata := fun _ _ _ => none }

/-- A concrete coordinating idata sub-handler yielding no actions. -/
def ihandler0 : IDataHandler :=
  { handle_put_idata_req := fun _ _ _ => none
    handle_get_idata_req := fun _ _ _ => none
    handle_delete_unpub_idata_req := fun _ _ _ => none
    handle_mutation_resp := fun _ _ _ => none
    handle_get_idata_resp := fun _ _ _ => none
    trigger_data_copy_process := fun _ => none }

/-- A concrete mutable-data sub-handler yielding no actions. -/
def mhandler0 : MDataHandler := { handle_request := fun _ _ _ => none }

/-- A concrete structured-data sub-handler yielding no actions. -/
def shandler0 : SDataHandler := { handle_request := fun _ _ _ => none }

/-- A concrete storage-role (non-elder) handler with an empty pending map. -/
def adult0 : DataHandler :=
  { id := ⟨7⟩, idata_holder := holder0, idata_handler := none,
    mdata_handler := none, sdata_handler := none,
    idata_copy_op := fun _ => none }

/-- A concrete elder handler (all coordinating sub-handlers present). -/
def elder0 : DataHandler :=
  { id := ⟨7⟩, idata_holder := holder0, idata_handler := some ihandler0,
    mdata_handler := some mhandler0, sdata_handler := some shandler0,
    idata_copy_op := fun _ => none }

/-- A concrete handler with one pending duplication entry at id `5`,
recorded for requester `PublicId.client 1`. -/
def pending5 : DataHandler :=
  { adult0 with idata_copy_op :=
      fun k => if k = 5 then some (PublicId.client 1) else none }

/-!
Theorems settling the claims.
-/

/-- C1: with no pending entry for a correlation id, the first duplication
trigger with that id emits exactly one multicast `SendToPeers` action —
targeting exactly the holder set, carrying a chunk `Get` request for the
trigger's address under the same id, with this node (`PublicId::Node` of
self) substituted as requester — and records the original requester in the
pending map; a second trigger with the same id emits no action and leaves
the state unchanged. -/
theorem duplicate_trigger_once (s : DataHandler) (src src2 : SrcLocation)
    (requester requester2 : PublicId) (address address2 : IDataAddress)
    (holders holders2 : Finset XorName) (message_id : MessageId)
    (h : s.idata_copy_op message_id = none) :
    (s.handle_vault_rpc src (Rpc.duplicate requester address holders message_id)).1
      = some (Action.sendToPeers s.id.name holders
          (Rpc.request (Request.idata (IDataRequest.get address))
            (PublicId.node s.id) message_id)) ∧
    (s.handle_vault_rpc src
        (Rpc.duplicate requester address holders message_id)).2.idata_copy_op message_id
      = some requester ∧
    ((s.handle_vault_rpc src (Rpc.duplicate requester address holders message_id)).2.handle_vault_rpc
        src2 (Rpc.duplicate requester2 address2 holders2 message_id))
      = (none,
         (s.handle_vault_rpc src (Rpc.duplicate requester address holders message_id)).2) := by
  simp [DataHandler.handle_vault_rpc, DataHandler.handle_duplicate_request, h]

/-- Witness for C1 at a concrete state with an empty pending map. -/
theorem duplicate_trigger_once_witness :
    adult0.idata_copy_op 5 = none ∧
    (adult0.handle_vault_rpc (SrcLocation.nodeSrc 9)
        (Rpc.duplicate (PublicId.client 1) (IDataAddress.pub 2) {3, 4} 5)).1
      = some (Action.sendToPeers adult0.id.name {3, 4}
          (Rpc.request (Request.idata (IDataRequest.get (IDataAddress.pub 2)))
            (PublicId.node adult0.id) 5)) ∧
    (adult0.handle_vault_rpc (SrcLocation.nodeSrc 9)
        (Rpc.duplicate (PublicId.client 1) (IDataAddress.pub 2) {3, 4} 5)).2.idata_copy_op 5
      = some (PublicId.client 1) :=
  ⟨rfl,
   (duplicate_trigger_once adult0 (SrcLocation.nodeSrc 9) (SrcLocation.nodeSrc 9)
      (PublicId.client 1) (PublicId.client 1) (IDataAddress.pub 2) (IDataAddress.pub 2)
      {3, 4} {3, 4} 5 rfl).1,
   (duplicate_trigger_once adult0 (SrcLocation.nodeSrc 9) (SrcLocation.nodeSrc 9)
      (PublicId.client 1) (PublicId.client 1) (IDataAddress.pub 2) (IDataAddress.pub 2)
      {3, 4} {3, 4} 5 rfl).2.1⟩

/-- C2: for every immutable-data Put, Get or DeleteUnpub request, the
choice between the holder path and the router path is decided solely by
whether the source location is classified `Section`, identically for all
three operation kinds and independently of the request's content. -/
theorem idata_dispatch_by_classification (s : DataHandler) (src : SrcLocation)
    (requester : PublicId) (idata_req : IDataRequest) (message_id : MessageId) :
    s.handle_request src requester (Request.idata idata_req) message_id =
      ((if src.isSection then holderDispatch s requester idata_req message_id
        else routerDispatch s requester idata_req message_id), s) := by
  cases idata_req <;> cases src <;>
    simp [DataHandler.handle_request, holderDispatch, routerDispatch, SrcLocation.isSection]

/-- C3: a `GetIData` response whose correlation id has a pending
duplication entry and whose result is a success stores the returned chunk
via the holder under the requester identity recorded at trigger time —
never under the identity of the replying peer (the result does not depend
on `src`) — and leaves the state unchanged. -/
theorem pending_success_stores_recorded_requester (s : DataHandler) (src : XorName)
    (data : IData) (message_id : MessageId) (requester : PublicId)
    (h : s.idata_copy_op message_id = some requester) :
    s.handle_response src (Response.getIData (Except.ok data)) message_id
      = (s.idata_holder.store_idata data requester message_id, s) := by
  simp [DataHandler.handle_response, h]

/-- Witness for C3 at a concrete pending state. -/
theorem pending_success_stores_recorded_requester_witness :
    pending5.idata_copy_op 5 = some (PublicId.client 1) ∧
    pending5.handle_response 9 (Response.getIData (Except.ok ⟨IDataAddress.pub 2⟩)) 5
      = (pending5.idata_holder.store_idata ⟨IDataAddress.pub 2⟩ (PublicId.client 1) 5,
         pending5) :=
  ⟨rfl,
   pending_success_stores_recorded_requester pending5 9 ⟨IDataAddress.pub 2⟩ 5
     (PublicId.client 1) rfl⟩

/-- C5: a `GetIData` response whose correlation id has a pending
duplication entry but whose result is a failure yields no action and
leaves the whole handler state — the pending map included — unchanged. -/
theorem pending_failure_no_action (s : DataHandler) (src : XorName) (e : NdError)
    (message_id : MessageId) (h : (s.idata_copy_op message_id).isSome = true) :
    s.handle_response src (Response.getIData (Except.error e)) message_id = (none, s) := by
  simp [DataHandler.handle_response, h]

/-- Witness for C5 at a concrete pending state. -/
theorem pending_failure_no_action_witness :
    (pending5.idata_copy_op 5).isSome = true ∧
    pending5.handle_response 9 (Response.getIData (Except.error 0)) 5 = (none, pending5) :=
  ⟨rfl, pending_failure_no_action pending5 9 0 5 rfl⟩

/-- C4: `Reading::get_result` delegates to `storage.get` exactly when the
envelope's most-recent sender address is classified `Section` and the
aggregated signature verifies; on every other combination the result is
`none`, uniformly in `storage` (so storage is never consulted on a
rejection path). -/
theorem read_gated_by_section_and_signature (address : BlobAddress)
    (msg : MsgEnvelope) (storage : ChunkStorage) :
    (Reading.new (BlobRead.get address) msg).get_result storage
      = if msg.most_recent_sender.isSectionAddressed && msg.verify
        then storage.get address msg.id msg.origin
        else none := by
  obtain ⟨sender, v, i, o⟩ := msg
  cases sender <;> cases v <;>
    simp [Reading.new, Reading.get_result, Reading.verify_msg,
      MsgSender.address, MsgSender.isSectionAddressed]

/-- C6: a storage-role node (both the mutable-data and structured-data
sub-handlers absent) presented with any mutable-data or structured-data
request returns no action and leaves the state unchanged. -/
theorem storage_role_mdata_sdata_no_action (s : DataHandler) (src : SrcLocation)
    (requester : PublicId) (mdata_req sdata_req : Nat) (message_id : MessageId)
    (hm : s.mdata_handler = none) (hs : s.sdata_handler = none) :
    s.handle_request src requester (Request.mdata mdata_req) message_id = (none, s) ∧
    s.handle_request src requester (Request.sdata sdata_req) message_id = (none, s) := by
  constructor <;> simp [DataHandler.handle_request, hm, hs]

/-- Witness for C6 at the concrete storage-role handler. -/
theorem storage_role_mdata_sdata_no_action_witness :
    adult0.mdata_handler = none ∧ adult0.sdata_handler = none ∧
    (adult0.handle_request (SrcLocation.nodeSrc 9) (PublicId.client 1) (Request.mdata 0) 5
        = (none, adult0) ∧
     adult0.handle_request (SrcLocation.nodeSrc 9) (PublicId.client 1) (Request.sdata 0) 5
        = (none, adult0)) :=
  ⟨rfl, rfl,
   storage_role_mdata_sdata_no_action adult0 (SrcLocation.nodeSrc 9) (PublicId.client 1)
     0 0 5 rfl rfl⟩

/-- C7: no inbound envelope processed by `handle_vault_rpc` ever removes a
pending-duplication entry: every correlation-id entry present before the
call is still present, with the same recorded requester, after it; and a
second success response for a pending id, processed after a first one, is
handled identically, producing a second store action under the same
recorded requester. -/
theorem pending_entries_never_removed (s : DataHandler) (src : SrcLocation) (rpc : Rpc)
    (k : MessageId) (requester : PublicId) (h : s.idata_copy_op k = some requester) :
    (s.handle_vault_rpc src rpc).2.idata_copy_op k = some requester ∧
    ∀ (peer peer2 : XorName) (data : IData),
      (s.handle_response peer (Response.getIData (Except.ok data)) k).2.handle_response
          peer2 (Response.getIData (Except.ok data)) k
        = (s.idata_holder.store_idata data requester k, s) := by
  constructor
  · cases rpc with
    | request req reqer mid => exact h
    | response resp mid => exact h
    | duplicate req2 addr2 holders2 mid2 =>
        simp only [DataHandler.handle_vault_rpc, DataHandler.handle_duplicate_request]
        split
        · rename_i hm
          rcases eq_or_ne k mid2 with rfl | hne
          · rw [hm] at h; cases h
          · simpa [hne] using h
        · exact h
  · intro peer peer2 data
    have h2 : (s.handle_response peer (Response.getIData (Except.ok data)) k).2 = s := rfl
    rw [h2]
    simp [DataHandler.handle_response, h]

/-- Witness for C7: a duplicate trigger re-using the pending id leaves the
entry in place, and two successive success responses both store under the
recorded requester. -/
theorem pending_entries_never_removed_witness :
    pending5.idata_copy_op 5 = some (PublicId.client 1) ∧
    (pending5.handle_vault_rpc (SrcLocation.nodeSrc 9)
        (Rpc.duplicate (PublicId.client 2) (IDataAddress.pub 3) {4} 5)).2.idata_copy_op 5
      = some (PublicId.client 1) ∧
    (pending5.handle_response 9 (Response.getIData (Except.ok ⟨IDataAddress.pub 2⟩)) 5).2.handle_response
        8 (Response.getIData (Except.ok ⟨IDataAddress.pub 2⟩)) 5
      = (pending5.idata_holder.store_idata ⟨IDataAddress.pub 2⟩ (PublicId.client 1) 5,
         pending5) :=
  ⟨rfl,
   (pending_entries_never_removed pending5 (SrcLocation.nodeSrc 9)
      (Rpc.duplicate (PublicId.client 2) (IDataAddress.pub 3) {4} 5) 5
      (PublicId.client 1) rfl).1,
   (pending_entries_never_removed pending5 (SrcLocation.nodeSrc 9)
      (Rpc.duplicate (PublicId.client 2) (IDataAddress.pub 3) {4} 5) 5
      (PublicId.client 1) rfl).2 9 8 ⟨IDataAddress.pub 2⟩⟩

/-- C8: every state produced by `DataHandler::new` has the three
coordinating sub-handlers all present when constructed as elder and all
absent when constructed as non-elder — hence never partially present —
and every `handle_vault_rpc` step preserves the all-or-none property. -/
theorem coord_group_all_or_none :
    (∀ (id : NodePublicId) (mkh : Except NdError IDataHolder)
       (mki : Except NdError IDataHandler) (mkm : Except NdError MDataHandler)
       (mks : Except NdError SDataHandler) (is_elder : Bool) (s : DataHandler),
       DataHandler.new id mkh mki mkm mks is_elder = Except.ok s →
       (is_elder = true →
          s.idata_handler.isSome = true ∧ s.mdata_handler.isSome = true ∧
          s.sdata_handler.isSome = true) ∧
       (is_elder = false →
          s.idata_handler = none ∧ s.mdata_handler = none ∧
          s.sdata_handler = none) ∧
       s.coordGroupConsistent) ∧
    (∀ (s : DataHandler) (src : SrcLocation) (rpc : Rpc),
       s.coordGroupConsistent → ((s.handle_vault_rpc src rpc).2).coordGroupConsistent) := by
  constructor
  · intro id mkh mki mkm mks is_elder s hnew
    cases mkh with
    | error e => simp [DataHandler.new] at hnew
    | ok holder =>
      cases is_elder with
      | false =>
          simp only [DataHandler.new, Bool.false_eq_true, if_false,
            Except.ok.injEq] at hnew
          subst hnew
          exact ⟨fun hb => Bool.noConfusion hb, fun _ => ⟨rfl, rfl, rfl⟩,
                 Or.inr ⟨rfl, rfl, rfl⟩⟩
      | true =>
          cases mki with
          | error e => simp [DataHandler.new] at hnew
          | ok ih =>
            cases mkm with
            | error e => simp [DataHandler.new] at hnew
            | ok mh =>
              cases mks with
              | error e => simp [DataHandler.new] at hnew
              | ok sh =>
                simp only [DataHandler.new, if_true, Except.ok.injEq] at hnew
                subst hnew
                exact ⟨fun _ => ⟨rfl, rfl, rfl⟩, fun hb => Bool.noConfusion hb,
                       Or.inl ⟨rfl, rfl, rfl⟩⟩
  · intro s src rpc h
    cases rpc with
    | request req reqer mid => exact h
    | response resp mid => exact h
    | duplicate req2 addr2 holders2 mid2 =>
        simp only [DataHandler.handle_vault_rpc, DataHandler.handle_duplicate_request]
        split
        · exact h
        · exact h

/-- Witness for C8: the concrete elder construction yields an all-present
group, the concrete non-elder construction yields an all-absent group, and
a concrete step from the storage-role state preserves the all-absent
group. -/
theorem coord_group_all_or_none_witness :
    (elder0.idata_handler.isSome = true ∧ elder0.mdata_handler.isSome = true ∧
      elder0.sdata_handler.isSome = true) ∧
    (adult0.idata_handler = none ∧ adult0.mdata_handler = none ∧
      adult0.sdata_handler = none) ∧
    (adult0.handle_vault_rpc (SrcLocation.nodeSrc 9)
        (Rpc.duplicate (PublicId.client 1) (IDataAddress.pub 2) {3} 5)).2.coordGroupConsistent :=
  ⟨(coord_group_all_or_none.1 ⟨7⟩ (Except.ok holder0) (Except.ok ihandler0)
      (Except.ok mhandler0) (Except.ok shandler0) true elder0 rfl).1 rfl,
   ((coord_group_all_or_none.1 ⟨7⟩ (Except.ok holder0) (Except.ok ihandler0)
      (Except.ok mhandler0) (Except.ok shandler0) false adult0 rfl).2).1 rfl,
   coord_group_all_or_none.2 adult0 (SrcLocation.nodeSrc 9)
     (Rpc.duplicate (PublicId.client 1) (IDataAddress.pub 2) {3} 5)
     (Or.inr ⟨rfl, rfl, rfl⟩)⟩

/-- C9: Coins, LoginPacket and Client requests, and any response kind
other than Mutation or GetIData, are logged and dropped: no action, no
state change. -/
theorem invalid_kinds_dropped (s : DataHandler) (src : SrcLocation) (peer : XorName)
    (requester : PublicId) (coins_req login_req client_req other_kind : Nat)
    (message_id : MessageId) :
    s.handle_request src requester (Request.coins coins_req) message_id = (none, s) ∧
    s.handle_request src requester (Request.loginPacket login_req) message_id = (none, s) ∧
    s.handle_request src requester (Request.client client_req) message_id = (none, s) ∧
    s.handle_response peer (Response.otherResponse other_kind) message_id = (none, s) :=
  ⟨rfl, rfl, rfl, rfl⟩

/-- C10: when a `GetIData` response's correlation id passes the
`contains_key` check, the subsequent lookup of the same id always yields a
value — the unwrap in the source can never fail — and the handler stores
under exactly that value. -/
theorem pending_lookup_for_unwrap_succeeds (s : DataHandler) (message_id : MessageId)
    (h : (s.idata_copy_op message_id).isSome = true) :
    ∃ requester, s.idata_copy_op message_id = some requester ∧
      (s.idata_copy_op message_id).get! = requester ∧
      ∀ (src : XorName) (data : IData),
        s.handle_response src (Response.getIData (Except.ok data)) message_id
          = (s.idata_holder.store_idata data requester message_id, s) := by
  cases hm : s.idata_copy_op message_id with
  | none => rw [hm] at h; cases h
  | some p =>
      refine ⟨p, rfl, rfl, ?_⟩
      intro src data
      simp [DataHandler.handle_response, hm]

/-- Witness for C10 at a concrete pending state. -/
theorem pending_lookup_for_unwrap_succeeds_witness :
    (pending5.idata_copy_op 5).isSome = true ∧
    ∃ requester, pending5.idata_copy_op 5 = some requester ∧
      (pending5.idata_copy_op 5).get! = requester ∧
      ∀ (src : XorName) (data : IData),
        pending5.handle_response src (Response.getIData (Except.ok data)) 5
          = (pending5.idata_holder.store_idata data requester 5, pending5) :=
  ⟨rfl, pending_lookup_for_unwrap_succeeds pending5 5 rfl⟩

end SnNode
